import Mathlib

/-!
# Verification of the Taleon interactive-fiction client

Shallow embedding of the behavioural core of the Taleon front-end:
the `apiCall` HTTP wrapper (two client variants), the mock login service,
and the story-session controller (optimistic submit / rollback / retry,
completion and continuation transitions).

Modelling conventions:
* JavaScript strings are Lean `String`s; JS `null`/`undefined` for a string
  is `Option String` with `none`; JS truthiness of a string is `s ≠ ""`.
* JS object identity (reference equality, used by `!==` and
  `Array.prototype.includes` on history records) is modelled by a numeric
  `oid` field; a freshly allocated record carries an `oid` distinct from
  every live record, which theorems state as a freshness hypothesis.
* React render-captured closure values (the `isLoading` guard, the
  `storyState.storyHistory` snapshot and `currentUser` read inside
  `useCallback` closures) are explicit `captured…` parameters of the
  embedded functions; a call starting from a quiescent state passes the
  current state's values, exactly as the rendered closures do.
* Backend calls are not performed; each operation takes the backend
  outcome (success payload or thrown error message) as a parameter and
  returns the resulting client state together with the generation request
  it issued, if any.
-/

namespace Taleon

/-- JS truthiness of a nullable string: `null`/`undefined` and `""` are falsy. -/
def optTruthy : Option String → Bool
  | none => false
  | some s => s != ""

/-- JS `x || null` on a nullable string: empty or absent collapses to `null`. -/
def jsOrNone : Option String → Option String
  | none => none
  | some s => if s = "" then none else some s

/-- JS `x || d` on a nullable string: absent or empty falls back to the default. -/
def jsOrD : Option String → String → String
  | none, d => d
  | some s, d => if s = "" then d else s

/-- JS `x || d` on a plain string: empty falls back to the default. -/
def jsOrStr (s d : String) : String := if s = "" then d else s

/-- JS `String.prototype.trim`: whitespace stripped from both ends. -/
def jsTrim (s : String) : String :=
  ⟨((s.data.dropWhile Char.isWhitespace).reverse.dropWhile Char.isWhitespace).reverse⟩

/-! ## API client (`services/auth.js`, both variants)

A parsed JSON value is abstracted to the single member the wrapper
inspects: its optional `detail` string field. -/

/-- Abstraction of a parsed JSON body: only the `detail` field is inspected. -/
structure JsVal where
  detail : Option String
deriving DecidableEq

/-- Abstraction of a `fetch` response as consumed by `apiCall`:
transport status, status text, whether the body is empty by content length,
the parsed JSON body (`none` = the body fails to parse as JSON) and the
engine's JSON-parse exception message for that case. -/
structure HttpResponse where
  ok : Bool
  status : Nat
  statusText : String
  contentLenZero : Bool
  body : Option JsVal
  parseErrMsg : String
deriving DecidableEq

/-- Result of a successful `apiCall`: the `{ success: true }` object for an
empty body, the `{ success: true, data: null }` object for the parse-failure
leniency, or the parsed JSON payload. -/
inductive ApiResult where
  | successEmpty : ApiResult
  | successNull : ApiResult
  | parsed (v : JsVal) : ApiResult
deriving DecidableEq

/-- `apiCall` of the header-auth client variant (`src/unnamed/part_000`,
lines 14–72): 204 short-circuits, then the body is parsed; a parse failure
with an ok status returns `{ success: true, data: null }`, a parse failure
with an error status throws a generic message, and a non-ok status throws
using the body's `detail` field when truthy. -/
def apiCallHeaderVariant (fetchResult : Except String HttpResponse) :
    Except String ApiResult :=
  match fetchResult with
  | Except.error e => Except.error e
  | Except.ok r =>
    if r.status == 204 then Except.ok ApiResult.successEmpty
    else
      match r.body with
      | none =>
        if r.ok then Except.ok ApiResult.successNull
        else Except.error
          ("API Error: " ++ toString r.status ++ " " ++ r.statusText ++
            " (JSON parsing failed)")
      | some v =>
        if !r.ok then
          Except.error (jsOrD v.detail
            ("API Error: " ++ toString r.status ++ " " ++ r.statusText))
        else Except.ok (ApiResult.parsed v)

/-- `apiCall` of the body-auth client variant (`src/unnamed/part_001`,
lines 11–75): a non-ok status throws (using `detail` when the error body
parses), an empty body (204 or content-length 0) returns `{ success: true }`,
and otherwise `response.json()` is returned — so a parse failure on an ok
status propagates the parse exception instead of being downgraded. -/
def apiCallBodyVariant (fetchResult : Except String HttpResponse) :
    Except String ApiResult :=
  match fetchResult with
  | Except.error e => Except.error e
  | Except.ok r =>
    if !r.ok then
      Except.error
        (match r.body with
          | some v => jsOrD v.detail
              ("API Error: " ++ toString r.status ++ " " ++ r.statusText)
          | none => "API Error: " ++ toString r.status ++ " " ++ r.statusText)
    else if r.status == 204 || r.contentLenZero then Except.ok ApiResult.successEmpty
    else
      match r.body with
      | some v => Except.ok (ApiResult.parsed v)
      | none => Except.error r.parseErrMsg

/-! ## Mock authentication service -/

/-- One entry of the hardcoded demo user directory. -/
structure DemoUser where
  id : String
  username : String
  password : String
  role : String
deriving DecidableEq

/-- The hardcoded demo directory (identical in both client variants). -/
def DEMO_USERS : List DemoUser :=
  [ { id := "admin-123", username := "admin", password := "storyteller123", role := "admin" },
    { id := "user-456", username := "user", password := "password123", role := "user" } ]

/-- The `safeUser` object built by `login` and written to local storage:
exactly the fields `id`, `username`, `role`. -/
structure SafeUser where
  id : String
  username : String
  role : String
deriving DecidableEq

/-- The serialized key/value pairs of the stored current-user record
(`JSON.stringify(safeUser)`). -/
def storedRecord (u : SafeUser) : List (String × String) :=
  [("id", u.id), ("username", u.username), ("role", u.role)]

/-- `login(username, password)`: look the credentials up in the demo
directory and return (and store) the password-free `safeUser` on a match. -/
def login (username password : String) : Option SafeUser :=
  match DEMO_USERS.find? (fun u => u.username == username && u.password == password) with
  | some u => some { id := u.id, username := u.username, role := u.role }
  | none => none

/-! ## Story session controller state -/

/-- One story-history record. `oid` models JS object identity: the code
removes the speculative echo with `item !== visualUpdate` and re-checks it
with `includes`, both reference-based. -/
structure HistoryItem where
  htype : String
  text : String
  oid : Nat
deriving DecidableEq

/-- A user action: a choice selection or a free-text custom input
(`{ choice }` / `{ customInput }` objects in the source). -/
structure Action where
  choice : Option String := none
  customInput : Option String := none
deriving DecidableEq

/-- The pending action retained for retry: the action plus the turn number
it was issued against (`lastAttemptedAction`). -/
structure PendingAction where
  action : Action
  turnNumber : Nat
deriving DecidableEq

/-- The payload of a `/generate-segment` request as issued by the client. -/
structure GenRequest where
  storyId : String
  userId : String
  turnNumber : Nat
  action : Action
deriving DecidableEq

/-- The backend response to a successful generation request. -/
structure GenResponse where
  choices : Option (List String)
  nextTurnNumber : Nat
  updatedSummary : String
  storySegment : String
  rawResponse : Option String
  errorMessage : Option String
deriving DecidableEq

/-- Outcome of the awaited generation call: the parsed response, or the
thrown error's message. -/
inductive GenOutcome where
  | success (r : GenResponse) : GenOutcome
  | failure (msg : String) : GenOutcome
deriving DecidableEq

/-- The backend response to `createStory`. -/
structure CreateResponse where
  id : String
  currentTurnNumber : Nat
  currentSummary : Option String
deriving DecidableEq

/-- The backend response to `continueStory`. -/
structure ContinueResponse where
  currentTurnNumber : Nat
deriving DecidableEq

/-- One stored message of a fetched story (`storyMessages` entries). -/
structure StoryMessage where
  mtype : String
  content : String
deriving DecidableEq

/-- The backend response to `getStoryDetails`. -/
structure StoryDetails where
  storyMessages : Option (List StoryMessage)
  last_choices : Option (List String)
  currentTurnNumber : Nat
  currentSummary : Option String
  isCompleted : Bool
deriving DecidableEq

/-- The client-held story state (the fields of `resetStoryState()`). -/
structure StoryState where
  storyHistory : List HistoryItem
  currentChoices : List String
  isLoading : Bool
  error : Option String
  llmError : Option String
  isCustomInputVisible : Bool
  customInput : String
  lastAttemptedAction : Option PendingAction
  currentStoryId : Option String
  currentTurnNumber : Nat
  currentSummary : String
  storyCompleted : Bool
  rawResponse : Option String
deriving DecidableEq

/-- `resetStoryState()`: the initial (and reset) story state. -/
def resetStoryState : StoryState :=
  { storyHistory := []
    currentChoices := []
    isLoading := false
    error := none
    llmError := none
    isCustomInputVisible := false
    customInput := ""
    lastAttemptedAction := none
    currentStoryId := none
    currentTurnNumber := 0
    currentSummary := ""
    storyCompleted := false
    rawResponse := none }

/-- The speculative echo record (`visualUpdate`): built from the action's
truthy field, carrying a fresh object identity `echoId`; `none` when the
action has neither a truthy `choice` nor a truthy `customInput`. -/
def mkVisualUpdate (action : Action) (echoId : Nat) : Option HistoryItem :=
  if optTruthy action.choice then
    some { htype := "choice", text := "> " ++ action.choice.getD "", oid := echoId }
  else if optTruthy action.customInput then
    some { htype := "userInput", text := "> (Custom) " ++ action.customInput.getD "", oid := echoId }
  else none

/-- `generateStorySegment(action, storyIdToUse, turnNumberToUse)`
(`src/unnamed/part_003` lines 324–408, identically `part_002` 202–286).

`capturedUser`, `capturedLoading` and `capturedHistory` are the values of
`currentUser`, `isLoading` and `storyState.storyHistory` captured by the
rendered closure. Returns the resulting state and the request issued, if
any. The guard bails out without touching state; otherwise the pending
action is stored, the echo is appended optimistically, and the outcome
branch applies the success replacement or the identity-based rollback
exactly as the source's two `updateStoryState` calls do (both compute the
new history from the captured snapshot). -/
def generateStorySegment (capturedUser : Option String) (capturedLoading : Bool)
    (capturedHistory : List HistoryItem) (st : StoryState)
    (action : Action) (storyIdToUse : Option String) (turnNumberToUse : Nat)
    (echoId narrId : Nat) (outcome : GenOutcome) : StoryState × Option GenRequest :=
  if capturedUser.isNone || !optTruthy storyIdToUse || capturedLoading then
    (st, none)
  else
    let st1 := { st with
      lastAttemptedAction := some { action := action, turnNumber := turnNumberToUse } }
    let vu := mkVisualUpdate action echoId
    let stOpt := { st1 with
      isLoading := true
      error := none
      llmError := none
      currentChoices := []
      customInput := ""
      isCustomInputVisible := false
      storyHistory :=
        match vu with
        | some u => capturedHistory ++ [u]
        | none => st1.storyHistory }
    let req : GenRequest := { storyId := storyIdToUse.getD "", userId := capturedUser.getD "",
                              turnNumber := turnNumberToUse, action := action }
    match outcome with
    | GenOutcome.success r =>
      ({ stOpt with
          currentChoices := r.choices.getD []
          currentTurnNumber := r.nextTurnNumber
          currentSummary := r.updatedSummary
          storyHistory := capturedHistory
            ++ (match vu with
                | some u =>
                  if capturedHistory.any (fun it => it.oid == u.oid) then [] else [u]
                | none => [])
            ++ [{ htype := "story", text := r.storySegment, oid := narrId }]
          rawResponse := jsOrNone r.rawResponse
          llmError := jsOrNone r.errorMessage
          lastAttemptedAction := none
          isLoading := false }, some req)
    | GenOutcome.failure msg =>
      ({ stOpt with
          error := some ("Failed to generate story: " ++ jsOrStr msg "Unknown error")
          isLoading := false
          storyHistory :=
            match vu with
            | some u => capturedHistory.filter (fun it => it.oid != u.oid)
            | none => capturedHistory }, some req)

/-- `handleChoiceClick(choice)` (`part_003` lines 608–621): no-op while
loading; while completed, the two terminal choices navigate away (resetting
the client story state via `handleGoToStorySelect`) and any other choice is
ignored; otherwise the choice is submitted against the current story id and
turn number. -/
def handleChoiceClick (capturedUser : Option String) (st : StoryState) (choice : String)
    (echoId narrId : Nat) (outcome : GenOutcome) : StoryState × Option GenRequest :=
  if st.isLoading then (st, none)
  else if st.storyCompleted then
    if choice == "Return to Story Selection" || choice == "Start a New Story" then
      (resetStoryState, none)
    else (st, none)
  else
    generateStorySegment capturedUser st.isLoading st.storyHistory st
      { choice := some choice, customInput := none }
      st.currentStoryId st.currentTurnNumber echoId narrId outcome

/-- `handleCustomSubmit(e)` (`part_003` lines 623–627): no-op when the
trimmed input is empty or a generation is loading; otherwise submits the
trimmed free text against the current story id and turn number. The
handler does not consult `storyCompleted`. -/
def handleCustomSubmit (capturedUser : Option String) (st : StoryState)
    (echoId narrId : Nat) (outcome : GenOutcome) : StoryState × Option GenRequest :=
  if jsTrim st.customInput == "" || st.isLoading then (st, none)
  else
    generateStorySegment capturedUser st.isLoading st.storyHistory st
      { choice := none, customInput := some (jsTrim st.customInput) }
      st.currentStoryId st.currentTurnNumber echoId narrId outcome

/-- `handleRetry()` (`part_003` lines 629–635): no-op without a pending
action or while loading; otherwise clears `error` and `llmError`, then
resubmits the stored action against the stored turn number. -/
def handleRetry (capturedUser : Option String) (st : StoryState)
    (echoId narrId : Nat) (outcome : GenOutcome) : StoryState × Option GenRequest :=
  match st.lastAttemptedAction with
  | none => (st, none)
  | some pa =>
    if st.isLoading then (st, none)
    else
      generateStorySegment capturedUser st.isLoading st.storyHistory
        { st with error := none, llmError := none }
        pa.action st.currentStoryId pa.turnNumber echoId narrId outcome

/-- `handleInputChange(e)` (`part_003` lines 637–641): the typed value
reaches `customInput` only when its length is at most
`MAX_CUSTOM_INPUT_LENGTH = 150`. -/
def handleInputChange (st : StoryState) (value : String) : StoryState :=
  if value.length ≤ 150 then { st with customInput := value } else st

/-- `handleStoryCompletion()` (`part_003` lines 566–581): guarded by a
truthy story id and not loading; on success sets `storyCompleted`, replaces
the choice set with the two terminal options; on failure records the error.
The transient `isLoading = true` window ends inside the same call. -/
def handleStoryCompletion (st : StoryState) (outcome : Except String Unit) : StoryState :=
  if !optTruthy st.currentStoryId || st.isLoading then st
  else
    match outcome with
    | Except.ok _ =>
      { st with
          storyCompleted := true
          currentChoices := ["Return to Story Selection", "Start a New Story"]
          isLoading := false }
    | Except.error e =>
      { st with error := some ("Failed to complete story: " ++ e), isLoading := false }

/-- `handleStoryContinuation()` (`part_003` lines 585–604): guarded by a
truthy story id and not loading; on success clears `storyCompleted`, copies
the backend's turn number and empties the choice set. -/
def handleStoryContinuation (st : StoryState) (outcome : Except String ContinueResponse) :
    StoryState :=
  if !optTruthy st.currentStoryId || st.isLoading then st
  else
    match outcome with
    | Except.ok r =>
      { st with
          storyCompleted := false
          currentTurnNumber := r.currentTurnNumber
          currentChoices := []
          isLoading := false }
    | Except.error e =>
      { st with error := some ("Failed to continue story: " ++ e), isLoading := false }

/-- `loadStoryDetails(storyId)` (`part_003` lines 411–454): resets the
story state, then populates it wholesale from the fetched details; history
records are rebuilt from `storyMessages` (fresh objects, ids `idBase + i`),
and the choice set comes from the fetched `last_choices`. -/
def loadStoryDetails (st : StoryState) (storyId : Option String)
    (outcome : Except String StoryDetails) (idBase : Nat) : StoryState :=
  if !optTruthy storyId then st
  else
    match outcome with
    | Except.error e => { resetStoryState with error := some ("Failed to load story: " ++ e) }
    | Except.ok d =>
      { resetStoryState with
          currentStoryId := storyId
          currentTurnNumber := d.currentTurnNumber
          currentSummary := jsOrD d.currentSummary ""
          storyCompleted := d.isCompleted
          storyHistory := (d.storyMessages.getD []).enum.map
            (fun p => { htype := p.2.mtype, text := p.2.content, oid := idBase + p.1 })
          currentChoices := d.last_choices.getD [] }

/-- `createNewStory(baseStoryId)` (`part_003` lines 457–503): resets state
with `isLoading = true`; on create failure records the error; on create
success copies the backend's story id, turn number and summary, then runs
the bootstrap generation ("Beginne die Geschichte") through the same
render-captured closure (whose `isLoading` and history snapshot predate the
reset). -/
def createNewStory (capturedUser : Option String) (st : StoryState)
    (createOutcome : Except String CreateResponse)
    (echoId narrId : Nat) (genOutcome : GenOutcome) : StoryState × Option GenRequest :=
  if capturedUser.isNone || st.isLoading then (st, none)
  else
    let st1 := { resetStoryState with isLoading := true }
    match createOutcome with
    | Except.error e =>
      ({ st1 with error := some ("Failed to create story: " ++ e), isLoading := false }, none)
    | Except.ok ns =>
      let st2 := { st1 with
        currentStoryId := some ns.id
        currentTurnNumber := ns.currentTurnNumber
        currentSummary := jsOrD ns.currentSummary ""
        storyCompleted := false
        isLoading := true }
      generateStorySegment capturedUser st.isLoading st.storyHistory st2
        { choice := some "Beginne die Geschichte", customInput := none }
        (some ns.id) ns.currentTurnNumber echoId narrId genOutcome

/-- Whether the custom free-text submission control is rendered
(`part_003` lines 963–1008): the interaction area requires not loading, no
surfaced error and a nonempty choice set; the custom-input block
additionally requires `!storyCompleted` and `isCustomInputVisible`. -/
def customSubmitControlShown (st : StoryState) : Bool :=
  !st.isLoading && !optTruthy st.error && (st.currentChoices.length != 0)
    && !st.storyCompleted && st.isCustomInputVisible

/-- An action carries no custom input longer than 150 characters. -/
def actionBounded (a : Action) : Bool :=
  match a.customInput with
  | none => true
  | some ci => decide (ci.length ≤ 150)

/-- A pending action, when present, is bounded. -/
def pendingBounded : Option PendingAction → Bool
  | none => true
  | some pa => actionBounded pa.action

/-- The length invariant on the story state: the live `customInput` field
and the stored pending action never exceed 150 characters of custom text. -/
def inputBounded (st : StoryState) : Bool :=
  decide (st.customInput.length ≤ 150) && pendingBounded st.lastAttemptedAction

/-- An issued request, when present, carries a bounded action. -/
def reqBounded : Option GenRequest → Bool
  | none => true
  | some rq => actionBounded rq.action

/-! ## Helper lemmas -/

/-- The speculative echo record always carries the fresh identity it was
allocated with. -/
theorem mkVisualUpdate_oid {a : Action} {e : Nat} {u : HistoryItem}
    (h : mkVisualUpdate a e = some u) : u.oid = e := by
  unfold mkVisualUpdate at h
  split at h
  · cases h; rfl
  · split at h
    · cases h; rfl
    · cases h

theorem length_dropWhile_le {α : Type} (p : α → Bool) (l : List α) :
    (l.dropWhile p).length ≤ l.length := by
  induction l with
  | nil => simp [List.dropWhile]
  | cons a l ih =>
    simp only [List.dropWhile]
    split
    · exact Nat.le_succ_of_le ih
    · exact Nat.le_refl _

/-- `trim` never lengthens a string. -/
theorem jsTrim_length_le (s : String) : (jsTrim s).length ≤ s.length := by
  show (((s.data.dropWhile Char.isWhitespace).reverse.dropWhile Char.isWhitespace).reverse).length
      ≤ s.data.length
  rw [List.length_reverse]
  calc ((s.data.dropWhile Char.isWhitespace).reverse.dropWhile Char.isWhitespace).length
      ≤ (s.data.dropWhile Char.isWhitespace).reverse.length :=
        length_dropWhile_le _ _
    _ = (s.data.dropWhile Char.isWhitespace).length := List.length_reverse _
    _ ≤ s.data.length := length_dropWhile_le _ _

/-! ## Claim theorems -/

/-- C1: a `Submit action` call that fails rolls the speculative echo back by
identity and leaves the history exactly as it was immediately before the
call, while the pending action recorded for this call is retained unchanged
for retry. `hfresh` states that the echo's allocated object identity is
distinct from every record already in the history, as JS reference equality
guarantees for a fresh object. -/
theorem submit_failure_rolls_back_history_and_keeps_pending
    (uid : String) (st : StoryState) (action : Action)
    (sid : String) (turn echoId narrId : Nat) (msg : String)
    (hsid : sid ≠ "") (hload : st.isLoading = false)
    (hfresh : ∀ it ∈ st.storyHistory, it.oid ≠ echoId) :
    (generateStorySegment (some uid) st.isLoading st.storyHistory st action (some sid) turn
        echoId narrId (GenOutcome.failure msg)).1.storyHistory = st.storyHistory ∧
    (generateStorySegment (some uid) st.isLoading st.storyHistory st action (some sid) turn
        echoId narrId (GenOutcome.failure msg)).1.lastAttemptedAction =
      some { action := action, turnNumber := turn } := by
  unfold generateStorySegment
  rw [hload]
  have hg : ((some uid : Option String).isNone || !optTruthy (some sid) || false) = false := by
    simp [optTruthy, hsid]
  rw [hg]
  rw [if_neg Bool.false_ne_true]
  cases h : mkVisualUpdate action echoId with
  | none => exact ⟨rfl, rfl⟩
  | some u =>
    have hu : u.oid = echoId := mkVisualUpdate_oid h
    refine ⟨?_, rfl⟩
    show List.filter (fun it => it.oid != u.oid) st.storyHistory = st.storyHistory
    apply List.filter_eq_self.mpr
    intro it hit
    simp only [bne_iff_ne, ne_eq, hu]
    exact fun hc => hfresh it hit hc

/-- C1 witness. -/
theorem submit_failure_rolls_back_history_and_keeps_pending_witness :
    (generateStorySegment (some "u") resetStoryState.isLoading resetStoryState.storyHistory
        resetStoryState { choice := some "A", customInput := none } (some "s1") 0 1 2
        (GenOutcome.failure "boom")).1.storyHistory = resetStoryState.storyHistory ∧
    (generateStorySegment (some "u") resetStoryState.isLoading resetStoryState.storyHistory
        resetStoryState { choice := some "A", customInput := none } (some "s1") 0 1 2
        (GenOutcome.failure "boom")).1.lastAttemptedAction =
      some { action := { choice := some "A", customInput := none }, turnNumber := 0 } :=
  submit_failure_rolls_back_history_and_keeps_pending "u" resetStoryState
    { choice := some "A", customInput := none } "s1" 0 1 2 "boom"
    (by decide) (by decide) (by decide)

/-- C2: the client never computes a turn number itself: a successful
`Submit action` copies the response's `nextTurnNumber`, and the other
operations that set `turnNumber` — create, resume (load details) and
continue — likewise copy the backend-supplied value (for create, the
bootstrap generation's `nextTurnNumber` on success, the created story's
turn number when the bootstrap fails). -/
theorem turn_number_always_backend_supplied
    (uid : String) (st stl stc : StoryState) (action : Action) (sid : String)
    (turn echoId narrId idBase : Nat) (r : GenResponse) (d : StoryDetails)
    (cr : ContinueResponse) (ns : CreateResponse) (m : String)
    (hsid : sid ≠ "") (hl : st.isLoading = false)
    (hsidc : optTruthy stc.currentStoryId = true) (hlc : stc.isLoading = false)
    (hns : ns.id ≠ "") :
    (generateStorySegment (some uid) st.isLoading st.storyHistory st action (some sid) turn
        echoId narrId (GenOutcome.success r)).1.currentTurnNumber = r.nextTurnNumber ∧
    (loadStoryDetails stl (some sid) (Except.ok d) idBase).currentTurnNumber =
      d.currentTurnNumber ∧
    (handleStoryContinuation stc (Except.ok cr)).currentTurnNumber = cr.currentTurnNumber ∧
    (createNewStory (some uid) st (Except.ok ns) echoId narrId
        (GenOutcome.success r)).1.currentTurnNumber = r.nextTurnNumber ∧
    (createNewStory (some uid) st (Except.ok ns) echoId narrId
        (GenOutcome.failure m)).1.currentTurnNumber = ns.currentTurnNumber := by
  have hg : ((some uid : Option String).isNone || !optTruthy (some sid) || false) = false := by
    simp [optTruthy, hsid]
  have hgn : ((some uid : Option String).isNone || !optTruthy (some ns.id) || false) = false := by
    simp [optTruthy, hns]
  refine ⟨?_, ?_, ?_, ?_, ?_⟩
  · unfold generateStorySegment
    rw [hl, hg, if_neg Bool.false_ne_true]
  · unfold loadStoryDetails
    have hg2 : (!optTruthy (some sid)) = false := by simp [optTruthy, hsid]
    rw [hg2, if_neg Bool.false_ne_true]
  · unfold handleStoryContinuation
    have hg3 : (!optTruthy stc.currentStoryId || stc.isLoading) = false := by
      simp [hsidc, hlc]
    rw [hg3, if_neg Bool.false_ne_true]
  · unfold createNewStory
    rw [hl]
    have hg4 : ((some uid : Option String).isNone || false) = false := by simp
    rw [hg4, if_neg Bool.false_ne_true]
    show (generateStorySegment (some uid) false st.storyHistory _ _ (some ns.id) _
        echoId narrId (GenOutcome.success r)).1.currentTurnNumber = r.nextTurnNumber
    unfold generateStorySegment
    rw [hgn, if_neg Bool.false_ne_true]
  · unfold createNewStory
    rw [hl]
    have hg4 : ((some uid : Option String).isNone || false) = false := by simp
    rw [hg4, if_neg Bool.false_ne_true]
    show (generateStorySegment (some uid) false st.storyHistory _ _ (some ns.id) _
        echoId narrId (GenOutcome.failure m)).1.currentTurnNumber = ns.currentTurnNumber
    unfold generateStorySegment
    rw [hgn, if_neg Bool.false_ne_true]

/-- C2 witness. -/
theorem turn_number_always_backend_supplied_witness :
    (generateStorySegment (some "u") resetStoryState.isLoading resetStoryState.storyHistory
        resetStoryState { choice := some "A", customInput := none } (some "s1") 0 1 2
        (GenOutcome.success
          { choices := some ["B"], nextTurnNumber := 7, updatedSummary := "sum",
            storySegment := "tale", rawResponse := none,
            errorMessage := none })).1.currentTurnNumber = 7 ∧
    (loadStoryDetails resetStoryState (some "s1")
        (Except.ok
          { storyMessages := none, last_choices := none, currentTurnNumber := 4,
            currentSummary := none, isCompleted := false }) 0).currentTurnNumber = 4 ∧
    (handleStoryContinuation
        { resetStoryState with currentStoryId := some "s1", storyCompleted := true }
        (Except.ok { currentTurnNumber := 5 })).currentTurnNumber = 5 ∧
    (createNewStory (some "u") resetStoryState
        (Except.ok { id := "s2", currentTurnNumber := 0, currentSummary := none }) 1 2
        (GenOutcome.success
          { choices := some ["B"], nextTurnNumber := 7, updatedSummary := "sum",
            storySegment := "tale", rawResponse := none,
            errorMessage := none })).1.currentTurnNumber = 7 ∧
    (createNewStory (some "u") resetStoryState
        (Except.ok { id := "s2", currentTurnNumber := 0, currentSummary := none }) 1 2
        (GenOutcome.failure "boom")).1.currentTurnNumber = 0 :=
  turn_number_always_backend_supplied "u" resetStoryState resetStoryState
    { resetStoryState with currentStoryId := some "s1", storyCompleted := true }
    { choice := some "A", customInput := none } "s1" 0 1 2 0
    { choices := some ["B"], nextTurnNumber := 7, updatedSummary := "sum",
      storySegment := "tale", rawResponse := none, errorMessage := none }
    { storyMessages := none, last_choices := none, currentTurnNumber := 4,
      currentSummary := none, isCompleted := false }
    { currentTurnNumber := 5 }
    { id := "s2", currentTurnNumber := 0, currentSummary := none } "boom"
    (by decide) (by decide) (by decide) (by decide) (by decide)

/-- C3: with a pending action and no generation in flight (and an active
session: a user and a truthy story id), `Retry()` clears `error` and
`llmError` and resubmits exactly the stored `(action, turnNumber)` pair —
not the current turn number; without a pending action, or while a
generation is in flight, `Retry()` is a no-op. -/
theorem retry_resubmits_stored_pair
    (uid : String) (st st2 st3 : StoryState) (pa : PendingAction)
    (echoId narrId : Nat) (outcome : GenOutcome)
    (hpa : st.lastAttemptedAction = some pa) (hload : st.isLoading = false)
    (hsid : optTruthy st.currentStoryId = true)
    (hnone : st2.lastAttemptedAction = none) (hl3 : st3.isLoading = true) :
    (handleRetry (some uid) st echoId narrId outcome).2 =
      some { storyId := st.currentStoryId.getD "", userId := uid,
             turnNumber := pa.turnNumber, action := pa.action } ∧
    handleRetry (some uid) st echoId narrId outcome =
      generateStorySegment (some uid) st.isLoading st.storyHistory
        { st with error := none, llmError := none }
        pa.action st.currentStoryId pa.turnNumber echoId narrId outcome ∧
    handleRetry (some uid) st2 echoId narrId outcome = (st2, none) ∧
    handleRetry (some uid) st3 echoId narrId outcome = (st3, none) := by
  have hg : ((some uid : Option String).isNone || !optTruthy st.currentStoryId || false)
      = false := by simp [hsid]
  refine ⟨?_, ?_, ?_, ?_⟩
  · unfold handleRetry
    rw [hpa, hload]
    dsimp only
    rw [if_neg Bool.false_ne_true]
    unfold generateStorySegment
    rw [hg, if_neg Bool.false_ne_true]
    cases outcome <;> rfl
  · unfold handleRetry
    rw [hpa, hload]
    dsimp only
    rw [if_neg Bool.false_ne_true]
  · unfold handleRetry
    rw [hnone]
  · unfold handleRetry
    cases h3 : st3.lastAttemptedAction with
    | none => rfl
    | some pa3 =>
      rw [hl3]
      dsimp only
      rw [if_pos rfl]

/-- C3 witness. -/
theorem retry_resubmits_stored_pair_witness :
    (handleRetry (some "u")
        { resetStoryState with
            currentStoryId := some "s1",
            lastAttemptedAction :=
              some { action := { choice := some "A", customInput := none }, turnNumber := 3 } }
        1 2 (GenOutcome.failure "boom")).2 =
      some { storyId := "s1", userId := "u", turnNumber := 3,
             action := { choice := some "A", customInput := none } } ∧
    handleRetry (some "u")
        { resetStoryState with
            currentStoryId := some "s1",
            lastAttemptedAction :=
              some { action := { choice := some "A", customInput := none }, turnNumber := 3 } }
        1 2 (GenOutcome.failure "boom") =
      generateStorySegment (some "u")
        ({ resetStoryState with
            currentStoryId := some "s1",
            lastAttemptedAction :=
              some { action := { choice := some "A", customInput := none },
                     turnNumber := 3 } } : StoryState).isLoading
        ({ resetStoryState with
            currentStoryId := some "s1",
            lastAttemptedAction :=
              some { action := { choice := some "A", customInput := none },
                     turnNumber := 3 } } : StoryState).storyHistory
        { { resetStoryState with
              currentStoryId := some "s1",
              lastAttemptedAction :=
                some { action := { choice := some "A", customInput := none },
                       turnNumber := 3 } } with error := none, llmError := none }
        { choice := some "A", customInput := none } (some "s1") 3 1 2
        (GenOutcome.failure "boom") ∧
    handleRetry (some "u") resetStoryState 1 2 (GenOutcome.failure "boom") =
      (resetStoryState, none) ∧
    handleRetry (some "u")
        { resetStoryState with
            isLoading := true,
            lastAttemptedAction :=
              some { action := { choice := some "A", customInput := none }, turnNumber := 3 } }
        1 2 (GenOutcome.failure "boom") =
      ({ resetStoryState with
          isLoading := true,
          lastAttemptedAction :=
            some { action := { choice := some "A", customInput := none }, turnNumber := 3 } },
        none) :=
  retry_resubmits_stored_pair "u"
    { resetStoryState with
        currentStoryId := some "s1",
        lastAttemptedAction :=
          some { action := { choice := some "A", customInput := none }, turnNumber := 3 } }
    resetStoryState
    { resetStoryState with
        isLoading := true,
        lastAttemptedAction :=
          some { action := { choice := some "A", customInput := none }, turnNumber := 3 } }
    { action := { choice := some "A", customInput := none }, turnNumber := 3 }
    1 2 (GenOutcome.failure "boom")
    (by decide) (by decide) (by decide) (by decide) (by decide)

/-- C4: while a generation is in flight (`isLoading = true`), a `Submit
action` — by choice click or by custom free-text submission — leaves the
state unchanged and issues no request, and the generation routine itself
bails out under its in-flight guard; so at most one generation request is
outstanding at a time. -/
theorem submit_noop_while_loading
    (uid choice : String) (st : StoryState) (action : Action) (sid : Option String)
    (turn echoId narrId : Nat) (outcome : GenOutcome)
    (hl : st.isLoading = true) :
    handleChoiceClick (some uid) st choice echoId narrId outcome = (st, none) ∧
    handleCustomSubmit (some uid) st echoId narrId outcome = (st, none) ∧
    generateStorySegment (some uid) true st.storyHistory st action sid turn
      echoId narrId outcome = (st, none) := by
  refine ⟨?_, ?_, ?_⟩
  · unfold handleChoiceClick
    rw [hl, if_pos rfl]
  · unfold handleCustomSubmit
    rw [hl]
    rw [if_pos (by simp)]
  · unfold generateStorySegment
    rw [if_pos (by simp)]

/-- C4 witness. -/
theorem submit_noop_while_loading_witness :
    handleChoiceClick (some "u") { resetStoryState with isLoading := true } "A" 1 2
      (GenOutcome.failure "boom") = ({ resetStoryState with isLoading := true }, none) ∧
    handleCustomSubmit (some "u") { resetStoryState with isLoading := true } 1 2
      (GenOutcome.failure "boom") = ({ resetStoryState with isLoading := true }, none) ∧
    generateStorySegment (some "u") true
      ({ resetStoryState with isLoading := true } : StoryState).storyHistory
      { resetStoryState with isLoading := true }
      { choice := some "A", customInput := none } (some "s1") 0 1 2
      (GenOutcome.failure "boom") = ({ resetStoryState with isLoading := true }, none) :=
  submit_noop_while_loading "u" "A" { resetStoryState with isLoading := true }
    { choice := some "A", customInput := none } (some "s1") 0 1 2
    (GenOutcome.failure "boom") (by decide)

/-- A completed session state with leftover custom input: reachable by
typing custom text, not submitting it, and completing the story
(`handleStoryCompletion` does not clear `customInput`). -/
def completedWithInput : StoryState :=
  { resetStoryState with
      storyCompleted := true
      currentStoryId := some "s1"
      currentChoices := ["Return to Story Selection", "Start a New Story"]
      customInput := "open the door" }

/-- C5 counterexample: `handleCustomSubmit` does not consult the completed
flag — invoked on a completed session with nonempty custom input, it issues
a turn-generation request. -/
theorem custom_submit_ignores_completed_flag :
    completedWithInput.storyCompleted = true ∧
    completedWithInput.isLoading = false ∧
    (handleCustomSubmit (some "user-456") completedWithInput 7 8
        (GenOutcome.failure "network")).2 =
      some { storyId := "s1", userId := "user-456", turnNumber := 0,
             action := { choice := none, customInput := some "open the door" } } := by
  exact ⟨rfl, rfl, rfl⟩

/-- C5 (amended): while the session is completed, choice clicks never issue
a generation request (a non-terminal choice is a complete no-op; the two
terminal choices reset the client story state as navigation away), and the
custom free-text submission control is not rendered; only the unrendered
`handleCustomSubmit` handler lacks the completed-flag check (see the
counterexample). -/
theorem completed_blocks_rendered_submissions
    (uid : Option String) (st : StoryState) (choice other : String)
    (echoId narrId : Nat) (outcome : GenOutcome)
    (hc : st.storyCompleted = true)
    (ho1 : other ≠ "Return to Story Selection") (ho2 : other ≠ "Start a New Story") :
    (handleChoiceClick uid st choice echoId narrId outcome).2 = none ∧
    handleChoiceClick uid st other echoId narrId outcome = (st, none) ∧
    customSubmitControlShown st = false := by
  refine ⟨?_, ?_, ?_⟩
  · unfold handleChoiceClick
    cases hL : st.isLoading with
    | true => rw [if_pos rfl]
    | false =>
      rw [if_neg Bool.false_ne_true, hc, if_pos rfl]
      split <;> rfl
  · unfold handleChoiceClick
    cases hL : st.isLoading with
    | true => rw [if_pos rfl]
    | false =>
      rw [if_neg Bool.false_ne_true, hc, if_pos rfl]
      rw [if_neg (by simp [ho1, ho2])]
  · unfold customSubmitControlShown
    rw [hc]
    simp

/-- C5 (amended) witness. -/
theorem completed_blocks_rendered_submissions_witness :
    (handleChoiceClick (some "u") completedWithInput "Return to Story Selection" 1 2
        (GenOutcome.failure "boom")).2 = none ∧
    handleChoiceClick (some "u") completedWithInput "look around" 1 2
        (GenOutcome.failure "boom") = (completedWithInput, none) ∧
    customSubmitControlShown completedWithInput = false :=
  completed_blocks_rendered_submissions (some "u") completedWithInput
    "Return to Story Selection" "look around" 1 2 (GenOutcome.failure "boom")
    (by decide) (by decide) (by decide)

/-- Response used in the C6 counterexample: success status, nonempty body
that fails JSON parsing. -/
def parseFailResp : HttpResponse :=
  { ok := true, status := 200, statusText := "OK", contentLenZero := false,
    body := none, parseErrMsg := "SyntaxError: unexpected token" }

/-- C6 counterexample: on a success-status response whose body fails JSON
parsing, the body-auth client variant propagates the parse exception as an
error, while the header-auth variant returns the lenient
success-with-null-payload — the claimed leniency does not hold in both
variants. -/
theorem body_variant_raises_on_parse_failure :
    apiCallBodyVariant (Except.ok parseFailResp) =
      Except.error "SyntaxError: unexpected token" ∧
    apiCallHeaderVariant (Except.ok parseFailResp) = Except.ok ApiResult.successNull :=
  ⟨rfl, rfl⟩

/-- C6 (amended): the parse-failure leniency holds only in the header-auth
client variant: there a success-status body failing JSON parse yields
`{ success: true, data: null }`; in the body-auth variant such a response
propagates the parse error, unless the body is empty by content length,
which yields the payload-less success object instead. -/
theorem parse_failure_leniency_header_variant_only
    (r : HttpResponse) (hok : r.ok = true) (h204 : r.status ≠ 204)
    (hbody : r.body = none) :
    apiCallHeaderVariant (Except.ok r) = Except.ok ApiResult.successNull ∧
    (r.contentLenZero = false →
      apiCallBodyVariant (Except.ok r) = Except.error r.parseErrMsg) ∧
    (r.contentLenZero = true →
      apiCallBodyVariant (Except.ok r) = Except.ok ApiResult.successEmpty) := by
  refine ⟨?_, ?_, ?_⟩
  · unfold apiCallHeaderVariant
    dsimp only
    rw [hbody]
    rw [if_neg (by simp [h204])]
    rw [hok, if_pos rfl]
  · intro hcl
    unfold apiCallBodyVariant
    dsimp only
    rw [hbody, hok]
    rw [if_neg (by simp)]
    rw [if_neg (by simp [h204, hcl])]
  · intro hcl
    unfold apiCallBodyVariant
    dsimp only
    rw [hbody, hok]
    rw [if_neg (by simp)]
    rw [if_pos (by simp [hcl])]

/-- C6 (amended) witness. -/
theorem parse_failure_leniency_header_variant_only_witness :
    apiCallHeaderVariant (Except.ok parseFailResp) = Except.ok ApiResult.successNull ∧
    apiCallBodyVariant (Except.ok parseFailResp) =
      Except.error parseFailResp.parseErrMsg :=
  ⟨(parse_failure_leniency_header_variant_only parseFailResp
      (by decide) (by decide) (by decide)).1,
   (parse_failure_leniency_header_variant_only parseFailResp
      (by decide) (by decide) (by decide)).2.1 (by decide)⟩

/-- Boundedness is preserved through a generation call whose action is
bounded: the resulting state's `customInput` and pending action, and the
issued request if any, never carry custom text longer than 150 characters. -/
theorem generateStorySegment_bounded
    (cu : Option String) (cl : Bool) (ch : List HistoryItem) (st : StoryState)
    (action : Action) (sid : Option String) (turn echoId narrId : Nat)
    (outcome : GenOutcome)
    (hact : actionBounded action = true) (hst : inputBounded st = true) :
    inputBounded (generateStorySegment cu cl ch st action sid turn
      echoId narrId outcome).1 = true ∧
    reqBounded (generateStorySegment cu cl ch st action sid turn
      echoId narrId outcome).2 = true := by
  unfold generateStorySegment
  split
  · exact ⟨hst, rfl⟩
  · cases outcome with
    | success r =>
      constructor
      · simp [inputBounded, pendingBounded]
      · simpa [reqBounded] using hact
    | failure m =>
      constructor
      · simp [inputBounded, pendingBounded, hact]
      · simpa [reqBounded] using hact

/-- C7: custom free text is capped at 150 characters: the input handler
rejects longer values outright and preserves the bound, and each
interaction handler keeps the state's custom input and pending action
bounded and never issues a generation request whose action carries a
`customInput` longer than 150 characters. -/
theorem custom_input_capped_at_150
    (uid choice value value2 : String) (st : StoryState) (echoId narrId : Nat)
    (outcome : GenOutcome)
    (hst : inputBounded st = true) (hlong : 150 < value.length) :
    handleInputChange st value = st ∧
    inputBounded (handleInputChange st value2) = true ∧
    (inputBounded (handleCustomSubmit (some uid) st echoId narrId outcome).1 = true ∧
      reqBounded (handleCustomSubmit (some uid) st echoId narrId outcome).2 = true) ∧
    (inputBounded (handleChoiceClick (some uid) st choice echoId narrId outcome).1 = true ∧
      reqBounded (handleChoiceClick (some uid) st choice echoId narrId outcome).2 = true) ∧
    (inputBounded (handleRetry (some uid) st echoId narrId outcome).1 = true ∧
      reqBounded (handleRetry (some uid) st echoId narrId outcome).2 = true) := by
  have hci : st.customInput.length ≤ 150 := by
    have h2 := hst
    unfold inputBounded at h2
    simp only [Bool.and_eq_true, decide_eq_true_eq] at h2
    exact h2.1
  refine ⟨?_, ?_, ?_, ?_, ?_⟩
  · unfold handleInputChange
    rw [if_neg (Nat.not_le.mpr hlong)]
  · unfold handleInputChange
    split
    · unfold inputBounded at hst ⊢
      simp only [Bool.and_eq_true, decide_eq_true_eq] at hst ⊢
      exact ⟨by assumption, hst.2⟩
    · exact hst
  · unfold handleCustomSubmit
    split
    · exact ⟨hst, rfl⟩
    · apply generateStorySegment_bounded
      · unfold actionBounded
        simp only [decide_eq_true_eq]
        calc (jsTrim st.customInput).length ≤ st.customInput.length :=
              jsTrim_length_le _
          _ ≤ 150 := hci
      · exact hst
  · unfold handleChoiceClick
    split
    · exact ⟨hst, rfl⟩
    · split
      · split
        · exact ⟨by decide, rfl⟩
        · exact ⟨hst, rfl⟩
      · apply generateStorySegment_bounded
        · rfl
        · exact hst
  · unfold handleRetry
    cases h : st.lastAttemptedAction with
    | none => exact ⟨hst, rfl⟩
    | some pa =>
      dsimp only
      split
      · exact ⟨hst, rfl⟩
      · have h2 := hst
        unfold inputBounded at h2
        simp only [Bool.and_eq_true, decide_eq_true_eq] at h2
        have h3 := h2.2
        rw [h] at h3
        apply generateStorySegment_bounded
        · exact h3
        · unfold inputBounded
          simp only [Bool.and_eq_true, decide_eq_true_eq]
          exact ⟨h2.1, h3⟩

/-- A 151-character input value used by the C7 witness. -/
def longValue : String := String.replicate 151 'x'

/-- C7 witness. -/
theorem custom_input_capped_at_150_witness :
    handleInputChange resetStoryState longValue = resetStoryState ∧
    inputBounded (handleInputChange resetStoryState "hello") = true ∧
    (inputBounded (handleCustomSubmit (some "u") resetStoryState 1 2
        (GenOutcome.failure "boom")).1 = true ∧
      reqBounded (handleCustomSubmit (some "u") resetStoryState 1 2
        (GenOutcome.failure "boom")).2 = true) ∧
    (inputBounded (handleChoiceClick (some "u") resetStoryState "A" 1 2
        (GenOutcome.failure "boom")).1 = true ∧
      reqBounded (handleChoiceClick (some "u") resetStoryState "A" 1 2
        (GenOutcome.failure "boom")).2 = true) ∧
    (inputBounded (handleRetry (some "u") resetStoryState 1 2
        (GenOutcome.failure "boom")).1 = true ∧
      reqBounded (handleRetry (some "u") resetStoryState 1 2
        (GenOutcome.failure "boom")).2 = true) :=
  custom_input_capped_at_150 "u" "A" longValue "hello" resetStoryState 1 2
    (GenOutcome.failure "boom") (by decide) (by simp [longValue])

/-- C8: on a session with a story id and no generation in flight,
`Complete()` followed immediately by `Continue()`, both succeeding, ends
with `completed = false` and an empty choice set, and neither call touches
the story history. -/
theorem complete_then_continue_preserves_history
    (st : StoryState) (cr : ContinueResponse)
    (hsid : optTruthy st.currentStoryId = true) (hl : st.isLoading = false) :
    (handleStoryContinuation (handleStoryCompletion st (Except.ok ()))
        (Except.ok cr)).storyCompleted = false ∧
    (handleStoryContinuation (handleStoryCompletion st (Except.ok ()))
        (Except.ok cr)).currentChoices = [] ∧
    (handleStoryCompletion st (Except.ok ())).storyHistory = st.storyHistory ∧
    (handleStoryContinuation (handleStoryCompletion st (Except.ok ()))
        (Except.ok cr)).storyHistory = st.storyHistory := by
  have hg : (!optTruthy st.currentStoryId || st.isLoading) = false := by
    simp [hsid, hl]
  have hg2 : (!optTruthy st.currentStoryId || false) = false := by simp [hsid]
  unfold handleStoryCompletion handleStoryContinuation
  rw [hg, if_neg Bool.false_ne_true]
  dsimp only
  rw [hg2, if_neg Bool.false_ne_true]
  exact ⟨rfl, rfl, rfl, rfl⟩

/-- C8 witness. -/
theorem complete_then_continue_preserves_history_witness :
    (handleStoryContinuation
        (handleStoryCompletion { resetStoryState with currentStoryId := some "s1" }
          (Except.ok ()))
        (Except.ok { currentTurnNumber := 2 })).storyCompleted = false ∧
    (handleStoryContinuation
        (handleStoryCompletion { resetStoryState with currentStoryId := some "s1" }
          (Except.ok ()))
        (Except.ok { currentTurnNumber := 2 })).currentChoices = [] ∧
    (handleStoryCompletion { resetStoryState with currentStoryId := some "s1" }
        (Except.ok ())).storyHistory =
      ({ resetStoryState with currentStoryId := some "s1" } : StoryState).storyHistory ∧
    (handleStoryContinuation
        (handleStoryCompletion { resetStoryState with currentStoryId := some "s1" }
          (Except.ok ()))
        (Except.ok { currentTurnNumber := 2 })).storyHistory =
      ({ resetStoryState with currentStoryId := some "s1" } : StoryState).storyHistory :=
  complete_then_continue_preserves_history
    { resetStoryState with currentStoryId := some "s1" }
    { currentTurnNumber := 2 } (by decide) (by decide)

/-- C9: a transport-successful generation can still surface a model-level
error: the success path sets `llmError` from the response's truthy
`errorMessage` (null when absent or empty) while applying every success
update in full — turn number, summary, choice set, pending-action clearing,
and the history gaining exactly the kept echo plus the new narration. -/
theorem success_model_error_applies_updates_in_full
    (uid : String) (st : StoryState) (action : Action) (sid : String)
    (turn echoId narrId : Nat) (r : GenResponse)
    (hsid : sid ≠ "") (hl : st.isLoading = false)
    (hfresh : ∀ it ∈ st.storyHistory, it.oid ≠ echoId) :
    (generateStorySegment (some uid) st.isLoading st.storyHistory st action (some sid)
        turn echoId narrId (GenOutcome.success r)).1.llmError = jsOrNone r.errorMessage ∧
    (generateStorySegment (some uid) st.isLoading st.storyHistory st action (some sid)
        turn echoId narrId (GenOutcome.success r)).1.currentTurnNumber = r.nextTurnNumber ∧
    (generateStorySegment (some uid) st.isLoading st.storyHistory st action (some sid)
        turn echoId narrId (GenOutcome.success r)).1.currentSummary = r.updatedSummary ∧
    (generateStorySegment (some uid) st.isLoading st.storyHistory st action (some sid)
        turn echoId narrId (GenOutcome.success r)).1.currentChoices = r.choices.getD [] ∧
    (generateStorySegment (some uid) st.isLoading st.storyHistory st action (some sid)
        turn echoId narrId (GenOutcome.success r)).1.lastAttemptedAction = none ∧
    (generateStorySegment (some uid) st.isLoading st.storyHistory st action (some sid)
        turn echoId narrId (GenOutcome.success r)).1.storyHistory =
      st.storyHistory ++ (mkVisualUpdate action echoId).toList ++
        [{ htype := "story", text := r.storySegment, oid := narrId }] := by
  have hg : ((some uid : Option String).isNone || !optTruthy (some sid) || false)
      = false := by simp [optTruthy, hsid]
  unfold generateStorySegment
  rw [hl, hg, if_neg Bool.false_ne_true]
  refine ⟨rfl, rfl, rfl, rfl, rfl, ?_⟩
  cases h : mkVisualUpdate action echoId with
  | none => rfl
  | some u =>
    have hu : u.oid = echoId := mkVisualUpdate_oid h
    have hany : (st.storyHistory.any fun it => it.oid == u.oid) = false := by
      rw [List.any_eq_false]
      intro it hit
      simp only [hu, beq_iff_eq]
      exact fun hc => hfresh it hit hc
    show st.storyHistory ++
        (if (st.storyHistory.any fun it => it.oid == u.oid) then [] else [u]) ++
        [{ htype := "story", text := r.storySegment, oid := narrId }] =
      st.storyHistory ++ (some u).toList ++
        [{ htype := "story", text := r.storySegment, oid := narrId }]
    rw [hany]
    rfl

/-- C9 witness. -/
theorem success_model_error_applies_updates_in_full_witness :
    (generateStorySegment (some "u") resetStoryState.isLoading resetStoryState.storyHistory
        resetStoryState { choice := some "A", customInput := none } (some "s1") 0 1 2
        (GenOutcome.success
          { choices := some ["B"], nextTurnNumber := 7, updatedSummary := "sum",
            storySegment := "tale", rawResponse := none,
            errorMessage := some "model overloaded" })).1.llmError =
      jsOrNone (some "model overloaded") ∧
    (generateStorySegment (some "u") resetStoryState.isLoading resetStoryState.storyHistory
        resetStoryState { choice := some "A", customInput := none } (some "s1") 0 1 2
        (GenOutcome.success
          { choices := some ["B"], nextTurnNumber := 7, updatedSummary := "sum",
            storySegment := "tale", rawResponse := none,
            errorMessage := some "model overloaded" })).1.currentTurnNumber = 7 ∧
    (generateStorySegment (some "u") resetStoryState.isLoading resetStoryState.storyHistory
        resetStoryState { choice := some "A", customInput := none } (some "s1") 0 1 2
        (GenOutcome.success
          { choices := some ["B"], nextTurnNumber := 7, updatedSummary := "sum",
            storySegment := "tale", rawResponse := none,
            errorMessage := some "model overloaded" })).1.currentSummary = "sum" ∧
    (generateStorySegment (some "u") resetStoryState.isLoading resetStoryState.storyHistory
        resetStoryState { choice := some "A", customInput := none } (some "s1") 0 1 2
        (GenOutcome.success
          { choices := some ["B"], nextTurnNumber := 7, updatedSummary := "sum",
            storySegment := "tale", rawResponse := none,
            errorMessage := some "model overloaded" })).1.currentChoices =
      (some ["B"] : Option (List String)).getD [] ∧
    (generateStorySegment (some "u") resetStoryState.isLoading resetStoryState.storyHistory
        resetStoryState { choice := some "A", customInput := none } (some "s1") 0 1 2
        (GenOutcome.success
          { choices := some ["B"], nextTurnNumber := 7, updatedSummary := "sum",
            storySegment := "tale", rawResponse := none,
            errorMessage := some "model overloaded" })).1.lastAttemptedAction = none ∧
    (generateStorySegment (some "u") resetStoryState.isLoading resetStoryState.storyHistory
        resetStoryState { choice := some "A", customInput := none } (some "s1") 0 1 2
        (GenOutcome.success
          { choices := some ["B"], nextTurnNumber := 7, updatedSummary := "sum",
            storySegment := "tale", rawResponse := none,
            errorMessage := some "model overloaded" })).1.storyHistory =
      resetStoryState.storyHistory ++
        (mkVisualUpdate { choice := some "A", customInput := none } 1).toList ++
        [{ htype := "story", text := "tale", oid := 2 }] :=
  success_model_error_applies_updates_in_full "u" resetStoryState
    { choice := some "A", customInput := none } "s1" 0 1 2
    { choices := some ["B"], nextTurnNumber := 7, updatedSummary := "sum",
      storySegment := "tale", rawResponse := none,
      errorMessage := some "model overloaded" }
    (by decide) (by decide) (by decide)

/-- C10: a successful login returns and stores a record whose keys are
exactly `id`, `username`, `role`, and none of its values is any demo
user's password — no reader of the stored current-user record can observe
a password. -/
theorem login_stores_only_safe_fields (un pw : String) (su : SafeUser)
    (h : login un pw = some su) :
    (storedRecord su).map Prod.fst = ["id", "username", "role"] ∧
    ∀ p ∈ storedRecord su, ∀ u ∈ DEMO_USERS, p.2 ≠ u.password := by
  refine ⟨rfl, ?_⟩
  unfold login DEMO_USERS at h
  simp only [List.find?] at h
  cases hc1 : (("admin" == un) && ("storyteller123" == pw)) with
  | true =>
    rw [hc1] at h
    dsimp only at h
    injection h with h2
    subst h2
    decide
  | false =>
    rw [hc1] at h
    dsimp only at h
    cases hc2 : (("user" == un) && ("password123" == pw)) with
    | true =>
      rw [hc2] at h
      dsimp only at h
      injection h with h2
      subst h2
      decide
    | false =>
      rw [hc2] at h
      dsimp only at h
      exact absurd h (by simp)

/-- C10 witness. -/
theorem login_stores_only_safe_fields_witness :
    (storedRecord { id := "admin-123", username := "admin", role := "admin" }).map
        Prod.fst = ["id", "username", "role"] ∧
    ∀ p ∈ storedRecord { id := "admin-123", username := "admin", role := "admin" },
      ∀ u ∈ DEMO_USERS, p.2 ≠ u.password :=
  login_stores_only_safe_fields "admin" "storyteller123"
    { id := "admin-123", username := "admin", role := "admin" } (by decide)

end Taleon
